import Mathlib

/-!
Verification of the nanoGPT Modal training-loop orchestrator
(`modal_train.py`) against its natural-language specification.

The development shallowly embeds the pieces of `train` that the claims
concern:

* the output-directory adjustment and checkpoint paths (lines 126-131,
  252-255, 395-397), over `List Char` path strings;
* the DDP gradient-accumulation division and tokens-per-iteration
  computation (lines 185-193);
* the learning-rate schedule `get_lr` (lines 324-335) over `ℝ`;
* the training loop proper (lines 365-449) as a step function on an
  explicit `LoopState`, with validation losses supplied as an oracle
  `ℕ → ℚ` and observable events (evaluations, checkpoint writes,
  training iterations) recorded in the state;
* the micro-step loss scaling and the logged loss (lines 403-416 and
  431-438).

Machine floats are modelled as `ℚ` where the code only compares and
copies them, and as `ℝ` where it applies `cos`.
-/

namespace ModalTrain

/-! ### Output-directory adjustment (lines 126-131) -/

/-- `CHECKPOINT_DIR = "/checkpoints"` (line 12), as a character list. -/
def CHECKPOINT_DIR : List Char := "/checkpoints".data

/-- Python `s.startswith(pre)` on character lists. -/
def pyStartsWith (pre s : List Char) : Bool := pre.isPrefixOf s

/-- Python `s.rstrip('/')`: drop all trailing `'/'` characters. -/
def pyRstripSlash (s : List Char) : List Char :=
  (s.reverse.dropWhile (fun c => c = '/')).reverse

/-- Python `os.path.basename(s)` for a path already stripped of trailing
slashes: the characters after the last `'/'`. -/
def pyBasename (s : List Char) : List Char :=
  (s.reverse.takeWhile (fun c => c ≠ '/')).reverse

/-- Python `os.path.join(a, b)` for a relative second component:
if `a` is empty the result is `b`; if `a` ends in `'/'` the components are
concatenated; otherwise a single `'/'` separator is inserted. -/
def pyJoin (a b : List Char) : List Char :=
  if a = [] then b
  else if a.getLast? = some '/' then a ++ b
  else a ++ '/' :: b

/-- Lines 126-131: if `config.out_dir` does not start with
`"/checkpoints"`, replace it by `os.path.join("/checkpoints",
os.path.basename(config.out_dir.rstrip('/')))`. -/
def adjustOutDir (d : List Char) : List Char :=
  if pyStartsWith CHECKPOINT_DIR d then d
  else pyJoin CHECKPOINT_DIR (pyBasename (pyRstripSlash d))

/-- The checkpoint file path used both by the resume load (line 254) and
by the save (line 396): `os.path.join(out_dir, 'ckpt.pt')` where
`out_dir` is the adjusted directory. -/
def ckptPath (configOutDir : List Char) : List Char :=
  pyJoin (adjustOutDir configOutDir) "ckpt.pt".data

/-! ### DDP setup (lines 185-193) -/

/-- Lines 185-186: under DDP, `assert gradient_accumulation_steps %
ddp_world_size == 0` then `gradient_accumulation_steps //=
ddp_world_size`. A failed assertion is a fatal startup abort, modelled
as `none`. -/
def ddpGradAccumSteps (gas worldSize : ℕ) : Option ℕ :=
  if gas % worldSize = 0 then some (gas / worldSize) else none

/-- Line 192: `tokens_per_iter = gradient_accumulation_steps *
ddp_world_size * batch_size * block_size` (with the per-process
accumulation-step count). -/
def tokensPerIter (gas worldSize batchSize blockSize : ℕ) : ℕ :=
  gas * worldSize * batchSize * blockSize

/-! ### Micro-step loss scaling (lines 403-416, 431-438) -/

/-- Lines 403-416: the value held by the `loss` variable after the
micro-step loop. Each micro-step `m` computes a raw loss `rawLoss m`
and rebinds `loss` to `rawLoss m / gas` (line 412) before the backward
pass; the loop leaves the last micro-step's divided loss in `loss`.
The initial accumulator `0` stands for the variable being unbound
before the loop; it is irrelevant once `0 < gas`. -/
def microLoopLoss (gas : ℕ) (rawLoss : ℕ → ℚ) : ℚ :=
  (List.range gas).foldl (fun _ m => rawLoss m / gas) 0

/-- Line 434: `lossf = loss.item() * gradient_accumulation_steps`, the
loss value logged for the iteration. -/
def loggedLoss (gas : ℕ) (rawLoss : ℕ → ℚ) : ℚ :=
  microLoopLoss gas rawLoss * gas

/-! ### Learning-rate schedule (lines 324-335, 368) -/

/-- Lines 324-335, `get_lr(it)`: linear warmup for `it < warmup_iters`,
the floor `min_lr` for `it > lr_decay_iters`, and cosine decay in
between. Iteration counts are naturals; rates are reals. -/
noncomputable def get_lr (learning_rate min_lr : ℝ)
    (warmup_iters lr_decay_iters : ℕ) (it : ℕ) : ℝ :=
  if it < warmup_iters then
    learning_rate * ((it : ℝ) + 1) / ((warmup_iters : ℝ) + 1)
  else if lr_decay_iters < it then
    min_lr
  else
    let dr : ℝ := ((it : ℝ) - (warmup_iters : ℝ)) /
      ((lr_decay_iters : ℝ) - (warmup_iters : ℝ))
    let coeff : ℝ := 0.5 * (1 + Real.cos (Real.pi * dr))
    min_lr + coeff * (learning_rate - min_lr)

/-- The decay-ratio expression of line 332, whose membership in `[0,1]`
line 333 asserts. -/
noncomputable def decayRatioExpr (warmup_iters lr_decay_iters it : ℕ) : ℝ :=
  ((it : ℝ) - (warmup_iters : ℝ)) /
    ((lr_decay_iters : ℝ) - (warmup_iters : ℝ))

/-- The spec's own three-segment schedule, transcribed from the words of
section 4.4 (so that `get_lr` can be proved a refinement of it):
warmup `base_lr * (iteration+1)/(warmup_iters+1)` for
`iteration < warmup_iters`; `min_lr` for `iteration > lr_decay_iters`;
otherwise `min_lr + 0.5*(1+cos(pi*ratio))*(base_lr - min_lr)` with
`ratio = (iteration - warmup_iters)/(lr_decay_iters - warmup_iters)`. -/
noncomputable def specLr (base_lr min_lr : ℝ)
    (warmup_iters lr_decay_iters : ℕ) (iteration : ℕ) : ℝ :=
  if iteration < warmup_iters then
    base_lr * ((iteration : ℝ) + 1) / ((warmup_iters : ℝ) + 1)
  else if lr_decay_iters < iteration then
    min_lr
  else
    min_lr + 0.5 * (1 + Real.cos (Real.pi *
      (((iteration : ℝ) - (warmup_iters : ℝ)) /
        ((lr_decay_iters : ℝ) - (warmup_iters : ℝ))))) *
      (base_lr - min_lr)

/-- Line 368: `lr = get_lr(iter_num) if decay_lr else learning_rate`,
the rate actually applied to the optimizer in an iteration. -/
noncomputable def appliedLr (learning_rate min_lr : ℝ)
    (warmup_iters lr_decay_iters : ℕ) (decay_lr : Bool) (it : ℕ) : ℝ :=
  if decay_lr then get_lr learning_rate min_lr warmup_iters lr_decay_iters it
  else learning_rate

/-! ### Gradient clipping (lines 417-420) -/

/-- Line 418: the clip step (unscale + `clip_grad_norm_`) runs exactly
when `grad_clip != 0.0`. -/
def clipStepPerformed (gradClip : ℚ) : Bool := gradClip ≠ 0

/-- Lines 417-420 as a transformation of the accumulated gradients:
when the guard fires, the gradients are unscaled and then clipped
(both kept abstract); otherwise they are untouched. -/
def clipGradStep (gradClip : ℚ) (unscale clip : ℚ → ℚ) (g : ℚ) : ℚ :=
  if clipStepPerformed gradClip then clip (unscale g) else g

/-! ### The training loop (lines 365-449) as a step function -/

/-- The configuration fields the loop control flow reads. -/
structure LoopConfig where
  eval_interval : ℕ
  eval_only : Bool
  always_save_checkpoint : Bool
  master_process : Bool
  max_iters : ℕ
  deriving Repr, DecidableEq

/-- The mutable loop state, extended with a record of the observable
events: `evals` counts calls to `estimate_loss` in the evaluation block,
`ckpts` lists each checkpoint written as the `(iter_num, best_val_loss)`
pair stored in the file, and `trainIters` lists the value of `iter_num`
during each execution of the micro-step training loop (each of which
ends in exactly one `scaler.step(optimizer)`). -/
structure LoopState where
  iter_num : ℕ
  best_val_loss : ℚ
  evals : ℕ
  ckpts : List (ℕ × ℚ)
  trainIters : List ℕ
  deriving Repr, DecidableEq

/-- Lines 227-228: `iter_num = 0`, `best_val_loss = 1e9`. -/
def initState : LoopState :=
  { iter_num := 0, best_val_loss := 1e9, evals := 0, ckpts := [],
    trainIters := [] }

/-- The recorded contents of a checkpoint file that the resume branch
reads (lines 272-273). -/
structure Checkpoint where
  iter_num : ℕ
  best_val_loss : ℚ
  deriving Repr, DecidableEq

/-- Lines 272-273: `iter_num = checkpoint['iter_num']`;
`best_val_loss = checkpoint['best_val_loss']`. -/
def resumeState (c : Checkpoint) : LoopState :=
  { iter_num := c.iter_num, best_val_loss := c.best_val_loss, evals := 0,
    ckpts := [], trainIters := [] }

/-- Lines 373-397, the evaluation / checkpoint block of one iteration.
`val` is the validation loss `losses['val']` that `estimate_loss`
returns if it is called. The `best_val_loss` assignment of line 385
happens before the write, so the written checkpoint's `best_val_loss`
field (line 392) is the just-assigned `val`. -/
def evalBlock (cfg : LoopConfig) (val : ℚ) (s : LoopState) : LoopState :=
  if s.iter_num % cfg.eval_interval = 0 ∧ cfg.master_process = true then
    if val < s.best_val_loss ∨ cfg.always_save_checkpoint = true then
      if 0 < s.iter_num then
        { s with
          evals := s.evals + 1
          best_val_loss := val
          ckpts := s.ckpts ++ [(s.iter_num, val)] }
      else { s with evals := s.evals + 1, best_val_loss := val }
    else { s with evals := s.evals + 1 }
  else s

/-- Lines 398-449 of the body: the `eval_only` break, the micro-step
training loop together with clipping / optimizer step (recorded as one
entry in `trainIters`), the `iter_num` increment, and the `max_iters`
termination check. -/
def trainPart (cfg : LoopConfig) (s1 : LoopState) : LoopState × Bool :=
  if s1.iter_num = 0 ∧ cfg.eval_only = true then (s1, true)
  else if cfg.max_iters < s1.iter_num + 1 then
    ({ s1 with
       trainIters := s1.trainIters ++ [s1.iter_num]
       iter_num := s1.iter_num + 1 }, true)
  else
    ({ s1 with
       trainIters := s1.trainIters ++ [s1.iter_num]
       iter_num := s1.iter_num + 1 }, false)

/-- One pass through the `while True:` body (lines 365-449).
`valLoss i` is the validation loss that an evaluation at iteration `i`
would observe. The returned flag is `true` when the body hits a
`break`. -/
def loopBody (cfg : LoopConfig) (valLoss : ℕ → ℚ) (s : LoopState) :
    LoopState × Bool :=
  trainPart cfg (evalBlock cfg (valLoss s.iter_num) s)

/-- The `while True:` loop, run for at most `fuel` iterations. The flag
is `true` when the loop terminated by `break` within the allotted
iterations. -/
def runLoop (cfg : LoopConfig) (valLoss : ℕ → ℚ) :
    ℕ → LoopState → LoopState × Bool
  | 0, s => (s, false)
  | fuel + 1, s =>
    let r := loopBody cfg valLoss s
    if r.2 then (r.1, true) else runLoop cfg valLoss fuel r.1

/-- A single-process (hence master) run with the default cadence,
always-save flag and iteration budget (lines 60, 64, 83, 189). -/
def defaultLoopConfig : LoopConfig :=
  { eval_interval := 2000, eval_only := false, always_save_checkpoint := true,
    master_process := true, max_iters := 600000 }

/-- The default configuration with `eval_only = True` (line 63 overridden). -/
def evalOnlyConfig : LoopConfig :=
  { defaultLoopConfig with eval_only := true }

/-- The default configuration with `always_save_checkpoint = False`. -/
def noAlwaysSaveConfig : LoopConfig :=
  { defaultLoopConfig with always_save_checkpoint := false }

/-! ## Theorems -/

/-! ### Loop-model helper lemmas -/

theorem evalBlock_iter_num (cfg : LoopConfig) (val : ℚ) (s : LoopState) :
    (evalBlock cfg val s).iter_num = s.iter_num := by
  unfold evalBlock
  split_ifs <;> rfl

theorem evalBlock_trainIters (cfg : LoopConfig) (val : ℚ) (s : LoopState) :
    (evalBlock cfg val s).trainIters = s.trainIters := by
  unfold evalBlock
  split_ifs <;> rfl

theorem evalBlock_evals (cfg : LoopConfig) (val : ℚ) (s : LoopState) :
    (evalBlock cfg val s).evals =
      if s.iter_num % cfg.eval_interval = 0 ∧ cfg.master_process = true
      then s.evals + 1 else s.evals := by
  unfold evalBlock
  split_ifs <;> rfl

theorem trainPart_trainIters (cfg : LoopConfig) (s1 : LoopState) :
    ∃ t : List ℕ,
      (trainPart cfg s1).1.trainIters = s1.trainIters ++ t := by
  unfold trainPart
  split_ifs
  · exact ⟨[], by simp⟩
  · exact ⟨[s1.iter_num], rfl⟩
  · exact ⟨[s1.iter_num], rfl⟩

theorem loopBody_trainIters (cfg : LoopConfig) (v : ℕ → ℚ) (s : LoopState) :
    ∃ t : List ℕ,
      (loopBody cfg v s).1.trainIters = s.trainIters ++ t := by
  obtain ⟨t, ht⟩ := trainPart_trainIters cfg (evalBlock cfg (v s.iter_num) s)
  exact ⟨t, by rw [loopBody, ht, evalBlock_trainIters]⟩

theorem runLoop_trainIters_append (cfg : LoopConfig) (v : ℕ → ℚ) :
    ∀ (fuel : ℕ) (s : LoopState), ∃ t : List ℕ,
      (runLoop cfg v fuel s).1.trainIters = s.trainIters ++ t := by
  intro fuel
  induction fuel with
  | zero => exact fun s => ⟨[], by simp [runLoop]⟩
  | succ k ih =>
    intro s
    obtain ⟨t1, ht1⟩ := loopBody_trainIters cfg v s
    by_cases hd : (loopBody cfg v s).2
    · exact ⟨t1, by simp [runLoop, hd, ht1]⟩
    · obtain ⟨t2, ht2⟩ := ih (loopBody cfg v s).1
      exact ⟨t1 ++ t2, by simp [runLoop, hd, ht2, ht1]⟩

theorem loopBody_trainIters_of_pos (cfg : LoopConfig) (v : ℕ → ℚ)
    (s : LoopState) (h0 : s.trainIters = []) (hn : s.iter_num ≠ 0) :
    (loopBody cfg v s).1.trainIters = [s.iter_num] := by
  unfold loopBody trainPart
  have hif : ¬ ((evalBlock cfg (v s.iter_num) s).iter_num = 0 ∧
      cfg.eval_only = true) := by
    simp [evalBlock_iter_num, hn]
  rw [if_neg hif]
  split_ifs <;> simp [evalBlock_trainIters, evalBlock_iter_num, h0]

theorem runLoop_first_train_iter (cfg : LoopConfig) (v : ℕ → ℚ) (k : ℕ)
    (s : LoopState) (h0 : s.trainIters = []) (hn : s.iter_num ≠ 0) :
    (runLoop cfg v (k + 1) s).1.trainIters.head? = some s.iter_num := by
  have hbt := loopBody_trainIters_of_pos cfg v s h0 hn
  by_cases hd : (loopBody cfg v s).2
  · simp [runLoop, hd, hbt]
  · obtain ⟨t, ht⟩ := runLoop_trainIters_append cfg v k (loopBody cfg v s).1
    simp [runLoop, hd, ht, hbt]

theorem loopBody_ckpts (cfg : LoopConfig) (v : ℕ → ℚ) (s : LoopState) :
    (loopBody cfg v s).1.ckpts =
      (evalBlock cfg (v s.iter_num) s).ckpts := by
  rw [loopBody]; unfold trainPart; split_ifs <;> rfl

/-! ### C1: resume restores the counters; the first iteration index -/

/-- C1 counterexample: a checkpoint recording `iter_num = 5000` (and
`best_val_loss = 1.23`), resumed under the default configuration, gives
a loop whose first training iteration has index `5000` — not `5001` as
the claim states. -/
theorem resume_first_train_iter_counterexample :
    (runLoop defaultLoopConfig (fun _ => 2) 1
        (resumeState ⟨5000, 123/100⟩)).1.trainIters.head? = some 5000 ∧
    ¬ ((runLoop defaultLoopConfig (fun _ => 2) 1
        (resumeState ⟨5000, 123/100⟩)).1.trainIters.head? = some 5001) := by
  decide

/-- C1 (amended): resuming from a checkpoint whose recorded `iter_num`
is `n > 0` restores `iter_num = n` and `best_val_loss` from the
checkpoint, and the loop's first training iteration after resume has
index `n` (concretely: `iter_num = 5000` resumes into a first training
iteration of index `5000`), never `0`. -/
theorem resume_restores_state_and_first_train_iter
    (cfg : LoopConfig) (v : ℕ → ℚ) (c : Checkpoint) (fuel : ℕ)
    (hn : 0 < c.iter_num) (hf : 0 < fuel) :
    (resumeState c).iter_num = c.iter_num ∧
    (resumeState c).best_val_loss = c.best_val_loss ∧
    (runLoop cfg v fuel (resumeState c)).1.trainIters.head? =
      some c.iter_num := by
  refine ⟨rfl, rfl, ?_⟩
  obtain ⟨k, rfl⟩ : ∃ k, fuel = k + 1 :=
    ⟨fuel - 1, (Nat.succ_pred_eq_of_pos hf).symm⟩
  exact runLoop_first_train_iter cfg v k (resumeState c) rfl
    (Nat.pos_iff_ne_zero.mp hn)

/-- C1 witness: the amended theorem applied to the concrete checkpoint
`(iter_num, best_val_loss) = (5000, 1.23)` with one unit of fuel. -/
theorem resume_restores_state_and_first_train_iter_witness :
    (resumeState ⟨5000, 123/100⟩).iter_num = 5000 ∧
    (resumeState ⟨5000, 123/100⟩).best_val_loss = 123/100 ∧
    (runLoop defaultLoopConfig (fun _ => 2) 1
        (resumeState ⟨5000, 123/100⟩)).1.trainIters.head? = some 5000 :=
  resume_restores_state_and_first_train_iter defaultLoopConfig (fun _ => 2)
    ⟨5000, 123/100⟩ 1 (by decide) (by decide)

/-! ### C2: the checkpoint-write condition -/

/-- C2: in any iteration of the loop, a checkpoint is written if and
only if the process is the master process, `iter_num` is a multiple of
the evaluation cadence, `iter_num > 0`, and the observed validation
loss improves on `best_val_loss` or the always-save flag is set; the
written file records the pair `(iter_num, val)`. -/
theorem checkpoint_write_iff (cfg : LoopConfig) (v : ℕ → ℚ)
    (s : LoopState) (_h : 0 < cfg.eval_interval) :
    (loopBody cfg v s).1.ckpts = s.ckpts ++
      (if cfg.master_process = true ∧ cfg.eval_interval ∣ s.iter_num ∧
          0 < s.iter_num ∧
          (v s.iter_num < s.best_val_loss ∨
            cfg.always_save_checkpoint = true)
       then [(s.iter_num, v s.iter_num)] else []) := by
  have hmod : s.iter_num % cfg.eval_interval = 0 ↔
      cfg.eval_interval ∣ s.iter_num :=
    Nat.dvd_iff_mod_eq_zero.symm
  rw [loopBody_ckpts]
  unfold evalBlock
  by_cases hC : cfg.master_process = true ∧ cfg.eval_interval ∣ s.iter_num ∧
      0 < s.iter_num ∧ (v s.iter_num < s.best_val_loss ∨
        cfg.always_save_checkpoint = true)
  · rw [if_pos hC, if_pos ⟨hmod.mpr hC.2.1, hC.1⟩, if_pos hC.2.2.2,
      if_pos hC.2.2.1]
  · rw [if_neg hC]
    split_ifs with h1 h2 h3
    · exact absurd ⟨h1.2, hmod.mp h1.1, h3, h2⟩ hC
    · simp
    · simp
    · simp

/-- C2 witness: the spec's explicit scenario. At `iter_num = 0` with
`val_loss = 2.5 < best_val_loss = 1e9` no file is written; at
`iter_num = 2000` with `val_loss = 2.4 < best_val_loss = 2.5` a file is
written. -/
theorem checkpoint_write_iff_witness :
    (loopBody noAlwaysSaveConfig (fun _ => 5/2) initState).1.ckpts = [] ∧
    (loopBody noAlwaysSaveConfig (fun _ => 12/5)
        { initState with
          iter_num := 2000
          best_val_loss := 5/2 }).1.ckpts = [(2000, 12/5)] := by
  constructor
  · have h := checkpoint_write_iff noAlwaysSaveConfig (fun _ => 5/2)
      initState (by decide)
    simpa using h
  · have h := checkpoint_write_iff noAlwaysSaveConfig (fun _ => 12/5)
      { initState with iter_num := 2000, best_val_loss := 5/2 } (by decide)
    norm_num [noAlwaysSaveConfig, defaultLoopConfig, initState] at h
    exact h

/-! ### C3: how `best_val_loss` is updated -/

/-- C3 counterexample: with the always-save flag set (the repository
default, line 64), an evaluation at `iter_num = 2000` observing
`val = 3` while `best_val_loss = 2` overwrites `best_val_loss` with
`3`, which is **not** `min 2 3`: the tracked value increased. -/
theorem best_val_loss_increases_counterexample :
    (evalBlock defaultLoopConfig 3
        { initState with iter_num := 2000,
                         best_val_loss := 2 }).best_val_loss = 3 ∧
    ¬ ((evalBlock defaultLoopConfig 3
        { initState with iter_num := 2000,
                         best_val_loss := 2 }).best_val_loss =
      min (2 : ℚ) 3) := by
  constructor
  · decide
  · decide

/-- C3 (amended): after an evaluation, `best_val_loss` equals the newly
observed validation loss whenever the evaluation fires and
(`val < best_val_loss` or the always-save flag is set), and is unchanged
otherwise; in particular it equals `min` of the old value and the new
loss — the minimum observed so far — exactly when the always-save flag
is disabled, while with the flag set (the default) it can increase. -/
theorem best_val_loss_update_characterization (cfg : LoopConfig)
    (val : ℚ) (s : LoopState) :
    ((evalBlock cfg val s).best_val_loss =
      if (s.iter_num % cfg.eval_interval = 0 ∧ cfg.master_process = true) ∧
         (val < s.best_val_loss ∨ cfg.always_save_checkpoint = true)
      then val else s.best_val_loss) ∧
    (cfg.always_save_checkpoint = false →
      s.iter_num % cfg.eval_interval = 0 → cfg.master_process = true →
      (evalBlock cfg val s).best_val_loss = min s.best_val_loss val) := by
  constructor
  · unfold evalBlock
    split_ifs with h1 h2 h3 <;> simp_all
  · intro ha hm hp
    unfold evalBlock
    rw [if_pos ⟨hm, hp⟩]
    rcases lt_or_le val s.best_val_loss with hlt | hle
    · rw [if_pos (Or.inl hlt)]
      split_ifs <;> simp [min_eq_right hlt.le]
    · have hno : ¬ (val < s.best_val_loss ∨
          cfg.always_save_checkpoint = true) := by
        simp [ha, not_lt.mpr hle]
      rw [if_neg hno]
      simp [min_eq_left hle]

/-- C3 witness: with the always-save flag disabled, the evaluation at
`iter_num = 2000` with old best `2` and new loss `3` leaves
`best_val_loss = min 2 3 = 2`. -/
theorem best_val_loss_update_characterization_witness :
    (evalBlock noAlwaysSaveConfig 3
        { initState with iter_num := 2000,
                         best_val_loss := 2 }).best_val_loss =
      min (2 : ℚ) 3 := by
  have h := (best_val_loss_update_characterization noAlwaysSaveConfig 3
    { initState with iter_num := 2000, best_val_loss := 2 }).2
    rfl (by decide) rfl
  simpa using h

/-! ### C9: evaluate-only mode -/

/-- C9: starting from the initial state (`iter_num = 0`) with the
evaluate-only flag set, on the master process with a positive
evaluation cadence, the loop performs exactly one evaluation pass and
terminates: no training iteration (hence no optimizer step) is ever
executed and no checkpoint is written. -/
theorem eval_only_single_eval_then_stop (cfg : LoopConfig) (v : ℕ → ℚ)
    (fuel : ℕ) (h1 : cfg.eval_only = true) (h2 : cfg.master_process = true)
    (_h3 : 0 < cfg.eval_interval) (hf : 0 < fuel) :
    (runLoop cfg v fuel initState).2 = true ∧
    (runLoop cfg v fuel initState).1.evals = 1 ∧
    (runLoop cfg v fuel initState).1.trainIters = [] ∧
    (runLoop cfg v fuel initState).1.ckpts = [] := by
  obtain ⟨k, rfl⟩ : ∃ k, fuel = k + 1 :=
    ⟨fuel - 1, (Nat.succ_pred_eq_of_pos hf).symm⟩
  have hb : loopBody cfg v initState = (evalBlock cfg (v 0) initState, true) := by
    rw [loopBody]
    unfold trainPart
    rw [if_pos ⟨evalBlock_iter_num cfg (v 0) initState, h1⟩]
    rfl
  have he : (evalBlock cfg (v 0) initState).evals = 1 := by
    rw [evalBlock_evals]
    simp [initState, h2]
  have ht : (evalBlock cfg (v 0) initState).trainIters = [] :=
    evalBlock_trainIters cfg (v 0) initState
  have hc : (evalBlock cfg (v 0) initState).ckpts = [] := by
    unfold evalBlock
    split_ifs <;> simp_all [initState]
  simp [runLoop, hb, he, ht, hc]

/-- C9 witness: the theorem applied to the concrete evaluate-only
configuration with constant validation loss `5/2` and fuel `7`. -/
theorem eval_only_single_eval_then_stop_witness :
    (runLoop evalOnlyConfig (fun _ => 5/2) 7 initState).2 = true ∧
    (runLoop evalOnlyConfig (fun _ => 5/2) 7 initState).1.evals = 1 ∧
    (runLoop evalOnlyConfig (fun _ => 5/2) 7 initState).1.trainIters = [] ∧
    (runLoop evalOnlyConfig (fun _ => 5/2) 7 initState).1.ckpts = [] :=
  eval_only_single_eval_then_stop evalOnlyConfig (fun _ => 5/2) 7
    rfl rfl (by decide) (by decide)

/-! ### C6: DDP accumulation-step scaling -/

/-- C6: under a distributed run of world size `W`, startup aborts
fatally (`none`) unless the configured accumulation-step count is
divisible by `W`; otherwise the per-process count is the configured
value divided by `W`, and
`(per-process steps) * W * batch_size * block_size` equals the
configured `gas * batch_size * block_size`, independently of `W`. -/
theorem ddp_grad_accum_scaling (gas W b s : ℕ) (_hW : 0 < W) :
    (gas % W = 0 →
      ddpGradAccumSteps gas W = some (gas / W) ∧
      tokensPerIter (gas / W) W b s = gas * b * s) ∧
    (gas % W ≠ 0 → ddpGradAccumSteps gas W = none) := by
  constructor
  · intro h
    refine ⟨by simp [ddpGradAccumSteps, h], ?_⟩
    unfold tokensPerIter
    rw [Nat.div_mul_cancel (Nat.dvd_of_mod_eq_zero h)]
  · intro h
    simp [ddpGradAccumSteps, h]

/-- C6 witness: the default configuration `gas = 40`, `batch_size = 12`,
`block_size = 1024` on a world of size `8`: each process uses `5`
accumulation steps and the token count per iteration is unchanged. -/
theorem ddp_grad_accum_scaling_witness :
    ddpGradAccumSteps 40 8 = some 5 ∧
    tokensPerIter 5 8 12 1024 = 40 * 12 * 1024 := by
  have h := (ddp_grad_accum_scaling 40 8 12 1024 (by decide)).1 (by decide)
  simpa using h

/-! ### C7: micro-step loss scaling and the logged loss -/

theorem foldl_const_fun {α : Type} (f : ℕ → α) (a : α) (n : ℕ) :
    (List.range (n + 1)).foldl (fun _ m => f m) a = f n := by
  rw [List.range_succ, List.foldl_append]
  rfl

/-- C7: in every accumulation window the loss of each micro-step is
divided by the per-process accumulation-step count (that division is
the body of `microLoopLoss`), the variable left by the loop holds the
last micro-step's divided loss, and the logged loss — that value
multiplied back by the same count — equals the last micro-step's raw
loss (an approximation of the window's total loss, not a sum or mean
over micro-steps). -/
theorem micro_step_loss_scaling (gas : ℕ) (raw : ℕ → ℚ) (h : 0 < gas) :
    microLoopLoss gas raw = raw (gas - 1) / gas ∧
    loggedLoss gas raw = raw (gas - 1) := by
  obtain ⟨k, rfl⟩ : ∃ k, gas = k + 1 :=
    ⟨gas - 1, (Nat.succ_pred_eq_of_pos h).symm⟩
  have hm : microLoopLoss (k + 1) raw = raw k / ((k + 1 : ℕ) : ℚ) := by
    unfold microLoopLoss
    exact foldl_const_fun (fun m => raw m / ((k + 1 : ℕ) : ℚ)) 0 k
  have hne : ((k + 1 : ℕ) : ℚ) ≠ 0 := by
    exact_mod_cast Nat.succ_ne_zero k
  constructor
  · simpa using hm
  · unfold loggedLoss
    rw [hm]
    simpa using div_mul_cancel₀ (raw k) hne

/-- C7 witness: two micro-steps with raw losses `1` and `3`: the loop
leaves `3 / 2` in the loss variable and the logged loss is `3`, the
last raw loss (not the sum `4` nor the mean `2`). -/
theorem micro_step_loss_scaling_witness :
    microLoopLoss 2 (fun i => if i = 0 then 1 else 3) = 3 / 2 ∧
    loggedLoss 2 (fun i => if i = 0 then 1 else 3) = 3 := by
  have h := micro_step_loss_scaling 2 (fun i => if i = 0 then (1 : ℚ) else 3)
    (by decide)
  simpa using h

/-! ### C8: the gradient-clip guard -/

/-- C8 counterexample: the guard of line 418 is `grad_clip != 0.0`, so a
negative threshold such as `-1` also triggers the clip step, although
`-1 > 0` is false — the clip step is not performed "if and only if the
threshold is greater than zero". -/
theorem grad_clip_negative_counterexample :
    clipStepPerformed (-1) = true ∧ ¬ ((-1 : ℚ) > 0) := by
  constructor
  · decide
  · norm_num

/-- C8 (amended): the clip step (unscale + clip) is performed in an
iteration iff the configured threshold is nonzero; a threshold of
exactly `0` makes the clip step a no-op on the gradients of every
iteration. -/
theorem grad_clip_iff_nonzero (gc : ℚ) (u c : ℚ → ℚ) (g : ℚ) :
    (clipStepPerformed gc = true ↔ gc ≠ 0) ∧
    (gc = 0 → clipGradStep gc u c g = g) ∧
    (gc ≠ 0 → clipGradStep gc u c g = c (u g)) := by
  refine ⟨by simp [clipStepPerformed], ?_, ?_⟩
  · intro h
    simp [clipGradStep, clipStepPerformed, h]
  · intro h
    simp [clipGradStep, clipStepPerformed, h]

/-- C8 witness: the amended theorem at threshold `0` (identity unscale
and clip maps, gradient `5`): the step is not performed and the
gradient is untouched. -/
theorem grad_clip_iff_nonzero_witness :
    (clipStepPerformed 0 = true ↔ (0 : ℚ) ≠ 0) ∧
    clipGradStep 0 (fun x => x) (fun x => x) 5 = 5 :=
  ⟨(grad_clip_iff_nonzero 0 (fun x => x) (fun x => x) 5).1,
   (grad_clip_iff_nonzero 0 (fun x => x) (fun x => x) 5).2.1 rfl⟩

/-! ### C4: the shape of the learning-rate schedule -/

/-- C4: `get_lr` is exactly the spec's three-segment function (warmup
`base_lr*(it+1)/(warmup_iters+1)` for `it < warmup_iters`, the floor
`min_lr` for `it > lr_decay_iters`, cosine decay in between); the decay
ratio of the middle segment stays in `[0,1]` (the assert of line 333);
and with the decay flag disabled the applied rate is constantly
`base_lr` at every iteration. -/
theorem lr_schedule_matches_spec (base_lr min_lr : ℝ) (w d : ℕ)
    (hwd : w < d) :
    (∀ it : ℕ, get_lr base_lr min_lr w d it = specLr base_lr min_lr w d it) ∧
    (∀ it : ℕ, w ≤ it → it ≤ d →
      0 ≤ decayRatioExpr w d it ∧ decayRatioExpr w d it ≤ 1) ∧
    (∀ it : ℕ, appliedLr base_lr min_lr w d false it = base_lr) := by
  refine ⟨fun it => rfl, fun it h1 h2 => ?_, fun it => rfl⟩
  unfold decayRatioExpr
  have hden : (0 : ℝ) < (d : ℝ) - (w : ℝ) := by
    have : (w : ℝ) < (d : ℝ) := by exact_mod_cast hwd
    linarith
  constructor
  · apply div_nonneg _ hden.le
    have : (w : ℝ) ≤ (it : ℝ) := by exact_mod_cast h1
    linarith
  · rw [div_le_one hden]
    have : (it : ℝ) ≤ (d : ℝ) := by exact_mod_cast h2
    linarith

/-- C4 witness: the schedule with `base_lr = 2`, `min_lr = 1`,
`warmup_iters = 2`, `lr_decay_iters = 5`, checked at iteration `3`
(cosine segment) and, for the disabled flag, at iteration `7`. -/
theorem lr_schedule_matches_spec_witness :
    get_lr 2 1 2 5 3 = specLr 2 1 2 5 3 ∧
    (0 ≤ decayRatioExpr 2 5 3 ∧ decayRatioExpr 2 5 3 ≤ 1) ∧
    appliedLr 2 1 2 5 false 7 = 2 :=
  ⟨(lr_schedule_matches_spec 2 1 2 5 (by norm_num)).1 3,
   (lr_schedule_matches_spec 2 1 2 5 (by norm_num)).2.1 3 (by norm_num)
     (by norm_num),
   (lr_schedule_matches_spec 2 1 2 5 (by norm_num)).2.2 7⟩

/-! ### C5: bounds and monotonicity of the schedule -/

/-- C5: with `0 < min_lr ≤ base_lr` and `warmup_iters < lr_decay_iters`,
every `get_lr` value is non-negative and at most `base_lr`; `get_lr` is
strictly increasing on `[0, warmup_iters)`; and `get_lr i = min_lr` for
every `i > lr_decay_iters`. -/
theorem lr_schedule_bounds (base_lr min_lr : ℝ) (w d : ℕ)
    (h0 : 0 < min_lr) (h1 : min_lr ≤ base_lr) (hwd : w < d) :
    (∀ i : ℕ, 0 ≤ get_lr base_lr min_lr w d i ∧
      get_lr base_lr min_lr w d i ≤ base_lr) ∧
    (∀ i j : ℕ, i < j → j < w →
      get_lr base_lr min_lr w d i < get_lr base_lr min_lr w d j) ∧
    (∀ i : ℕ, d < i → get_lr base_lr min_lr w d i = min_lr) := by
  have hbase : (0 : ℝ) < base_lr := lt_of_lt_of_le h0 h1
  refine ⟨?_, ?_, ?_⟩
  · intro i
    unfold get_lr
    split_ifs with hw hd
    · have hiw : (i : ℝ) < (w : ℝ) := by exact_mod_cast hw
      have hw1 : (0 : ℝ) < (w : ℝ) + 1 := by positivity
      constructor
      · positivity
      · rw [div_le_iff₀ hw1]
        nlinarith
    · exact ⟨h0.le, h1⟩
    · dsimp only
      have hc1 := Real.neg_one_le_cos (Real.pi *
        (((i : ℝ) - (w : ℝ)) / ((d : ℝ) - (w : ℝ))))
      have hc2 := Real.cos_le_one (Real.pi *
        (((i : ℝ) - (w : ℝ)) / ((d : ℝ) - (w : ℝ))))
      constructor
      · nlinarith
      · nlinarith
  · intro i j hij hjw
    have hiw : i < w := lt_trans hij hjw
    unfold get_lr
    rw [if_pos hiw, if_pos hjw]
    have hw1 : (0 : ℝ) < (w : ℝ) + 1 := by positivity
    rw [div_lt_div_iff₀ hw1 hw1]
    have hijR : (i : ℝ) < (j : ℝ) := by exact_mod_cast hij
    have key : base_lr * ((i : ℝ) + 1) < base_lr * ((j : ℝ) + 1) := by
      nlinarith
    exact mul_lt_mul_of_pos_right key hw1
  · intro i hdi
    unfold get_lr
    rw [if_neg (by omega), if_pos hdi]

/-- C5 witness: the schedule with `base_lr = 2`, `min_lr = 1`,
`warmup_iters = 2`, `lr_decay_iters = 5`: bounds at iteration `3`,
strict warmup growth from iteration `0` to `1`, and the floor at
iteration `6`. -/
theorem lr_schedule_bounds_witness :
    (0 ≤ get_lr 2 1 2 5 3 ∧ get_lr 2 1 2 5 3 ≤ 2) ∧
    get_lr 2 1 2 5 0 < get_lr 2 1 2 5 1 ∧
    get_lr 2 1 2 5 6 = 1 :=
  ⟨(lr_schedule_bounds 2 1 2 5 (by norm_num) (by norm_num) (by norm_num)).1 3,
   (lr_schedule_bounds 2 1 2 5 (by norm_num) (by norm_num)
     (by norm_num)).2.1 0 1 (by norm_num) (by norm_num),
   (lr_schedule_bounds 2 1 2 5 (by norm_num) (by norm_num)
     (by norm_num)).2.2 6 (by norm_num)⟩

/-! ### C10: the output-directory adjustment -/

theorem pyStartsWith_append (p t : List Char) :
    pyStartsWith p (p ++ t) = true := by
  unfold pyStartsWith
  rw [List.isPrefixOf_iff_prefix]
  exact List.prefix_append p t

/-- C10: if the configured output directory does not start with
`"/checkpoints"`, it is replaced by
`"/checkpoints/" ++ basename(rstrip(d, '/'))` — in particular the
directory actually used differs from the configured one — and the
checkpoint file path used both by the resume load and by every save is
built from the adjusted directory. -/
theorem out_dir_adjustment (d : List Char)
    (h : pyStartsWith CHECKPOINT_DIR d = false) :
    adjustOutDir d = CHECKPOINT_DIR ++ '/' :: pyBasename (pyRstripSlash d) ∧
    adjustOutDir d ≠ d ∧
    ckptPath d = pyJoin (adjustOutDir d) "ckpt.pt".data := by
  have hadj : adjustOutDir d =
      CHECKPOINT_DIR ++ '/' :: pyBasename (pyRstripSlash d) := by
    unfold adjustOutDir
    rw [if_neg (by simp [h])]
    unfold pyJoin
    rw [if_neg (by decide), if_neg (by decide)]
  refine ⟨hadj, ?_, rfl⟩
  intro heq
  have : pyStartsWith CHECKPOINT_DIR d = true := by
    rw [← heq, hadj]
    exact pyStartsWith_append CHECKPOINT_DIR
      ('/' :: pyBasename (pyRstripSlash d))
  simp [this] at h

/-- C10 witness: the configured directory `"out"` (the nanoGPT default
`out_dir` shape outside the volume) is adjusted to
`"/checkpoints/out"`, differs from the configured value, and the
checkpoint path is built from the adjusted directory. -/
theorem out_dir_adjustment_witness :
    adjustOutDir "out".data =
      CHECKPOINT_DIR ++ '/' :: pyBasename (pyRstripSlash "out".data) ∧
    adjustOutDir "out".data ≠ "out".data ∧
    ckptPath "out".data = pyJoin (adjustOutDir "out".data) "ckpt.pt".data :=
  out_dir_adjustment "out".data (by decide)

end ModalTrain
